import Mathlib

/-!
Verification of the character-locomotion and water-simulation core of
`src/main.js` (a Three.js third-person scene viewer).  The file embeds the
per-frame physics pipeline of the `animate` function — pre-move ground probe,
jump trigger, gravity integration, river flow-speed modification, ceiling
clamp, post-move ground resolution with the step-height revert policy — and
the water/foam simulation (`getWaveHeight`, the rock bump applied to water
mesh vertices, the foam life update and height lock).

The source exists in two revisions inside the repository; where they differ
(jump impulse 8.0 vs 10.0, step threshold 0.5 vs 0.6, the revert-branch
guard), both are embedded, suffixed `V1` (earlier, around line 680) and `V2`
(later, around line 3188).

Real numbers of the source are modelled as rationals.  Transcendental
functions (`Math.sin`, `Math.sqrt`) are passed in as function parameters so
that every definition stays executable; no claim settled here depends on a
particular value of those functions except at arguments where the value is
forced (for the concrete counterexample only the bump term matters, and it
contains no transcendental at distance zero).
-/

/-- Animation action names (the keys of the `actions` map in `main.js`). -/
inductive ActionName
  | idle | walk | run | jump
  deriving DecidableEq, Repr

/-- Player locomotion state: position, yaw facing, vertical velocity,
grounded flag and last known ground height (`player.position`,
`verticalVelocity`, `isGrounded`, `lastGroundHeight`, `activeAction` in
`main.js`). -/
structure LocoState where
  x : ℚ
  y : ℚ
  z : ℚ
  verticalVelocity : ℚ
  isGrounded : Bool
  lastGroundHeight : ℚ
  yaw : ℚ
  activeAction : ActionName
  deriving DecidableEq, Repr

/-- A ray-probe hit against the terrain mesh: distance from the ray origin
and world-space y of the hit point (`intersects[0].distance`,
`intersects[0].point.y`). -/
structure RayHit where
  distance : ℚ
  pointY : ℚ
  deriving DecidableEq, Repr

/-- Jump trigger of the earlier revision (main.js:680-690): on jump input
while grounded, set the vertical velocity to the impulse 8.0, clear the
grounded flag and, when a jump clip is available, make it the active
action. -/
def jumpTriggerV1 (space hasJumpAction : Bool) (s : LocoState) : LocoState :=
  if space && s.isGrounded then
    let s1 := { s with verticalVelocity := 8, isGrounded := false }
    if hasJumpAction then { s1 with activeAction := ActionName.jump } else s1
  else s

/-- Jump trigger of the later revision (main.js:3188-3212): identical except
for the impulse 10.0. -/
def jumpTriggerV2 (space hasJumpAction : Bool) (s : LocoState) : LocoState :=
  if space && s.isGrounded then
    let s1 := { s with verticalVelocity := 10, isGrounded := false }
    if hasJumpAction then { s1 with activeAction := ActionName.jump } else s1
  else s

/-- One per-frame gravity integration step (main.js:3214-3216 and 692-694):
`verticalVelocity -= 20.0 * delta; position.y += verticalVelocity * delta`
on the pair (verticalVelocity, y).  The updated velocity is used for the
position update, as in the source. -/
def gravityStep (dt : ℚ) (p : ℚ × ℚ) : ℚ × ℚ :=
  (p.1 - 20 * dt, p.2 + (p.1 - 20 * dt) * dt)

/-- Iterated gravity integration over `n` frames of equal delta `dt`. -/
def gravityIter (n : ℕ) (dt : ℚ) (p : ℚ × ℚ) : ℚ × ℚ :=
  match n with
  | 0 => p
  | Nat.succ k => gravityIter k dt (gravityStep dt p)

/-- River configuration fields read by the water/locomotion core
(`riverParams` in main.js:19-31). -/
structure RiverParams where
  speed : ℚ
  waveHeight : ℚ
  width : ℚ
  rLength : ℚ
  waterHeight : ℚ
  waterX : ℚ
  waterZ : ℚ
  deriving DecidableEq, Repr

/-- The source default river configuration (main.js:19-31): speed 0.7,
waveHeight 0.33, width 11.5, length 100, waterHeight 30.5, waterX 2,
waterZ -1.2. -/
def defaultRiverParams : RiverParams :=
  { speed := 7/10, waveHeight := 33/100, width := 23/2, rLength := 100,
    waterHeight := 61/2, waterX := 2, waterZ := -6/5 }

/-- The scalar wave field (main.js:3771-3780 and 1155-1164): a weighted sum
of three sines evaluated on flow-aligned coordinates, scaled by the
configured wave height.  The sine function is a parameter of the
embedding. -/
def getWaveHeight (sine : ℚ → ℚ) (p : RiverParams)
    (x z time dirX dirY : ℚ) : ℚ :=
  let flowDist := x * dirX + z * dirY
  let crossDist := x * dirY - z * dirX
  let h := sine (flowDist * (4/5) + time * p.speed) * (1/2)
    + sine (flowDist * (3/2) + crossDist * (6/5) + time * p.speed * (6/5)) * (3/10)
    + sine (flowDist * 3 + time * p.speed * 2) * (1/10)
  h * p.waveHeight

/-- A rock/anchor of the water simulation: position relative to the water
origin and influence radius (the `rocks` entries of main.js). -/
structure Rock where
  x : ℚ
  z : ℚ
  radius : ℚ
  deriving DecidableEq, Repr

/-- The additive rock bump applied per water-mesh vertex
(main.js:3799-3806): for each rock within 2.5 radii, add
`(1 - dist / (radius * 2.5)) * 0.6`.  Square root is a parameter of the
embedding (`Math.sqrt` in the source). -/
def rockPush (sqrtFn : ℚ → ℚ) (rocks : List Rock) (x y : ℚ) : ℚ :=
  (rocks.map (fun r =>
    let dx := x - r.x
    let dy := y - r.z
    let dist := sqrtFn (dx * dx + dy * dy)
    if dist < r.radius * (5/2) then (1 - dist / (r.radius * (5/2))) * (3/5)
    else 0)).sum

/-- The height written to a water-mesh vertex each frame (main.js:3793-3808):
the wave field plus the rock bump. -/
def waterVertexHeight (sine sqrtFn : ℚ → ℚ) (p : RiverParams)
    (rocks : List Rock) (x y time dirX dirY : ℚ) : ℚ :=
  getWaveHeight sine p x y time dirX dirY + rockPush sqrtFn rocks x y

/-- The foam height lock (main.js:3870-3871 and 1262-1264): each foam
particle's vertical coordinate is recomputed as the wave field at its
(x, z) plus the 0.05 surface offset; no rock term is applied here. -/
def foamLockY (sine : ℚ → ℚ) (p : RiverParams)
    (x z time dirX dirY : ℚ) : ℚ :=
  getWaveHeight sine p x z time dirX dirY + 1/20

/-- The foam advection step for a live particle (main.js:3862-3867): drift
along the flow direction at 0.08 · speed plus a sinusoidal lateral wobble. -/
def foamAdvect (sine : ℚ → ℚ) (speed dirX dirY time offset x z : ℚ) :
    ℚ × ℚ :=
  let noise := sine (time * 5 + offset) * (1/50)
  (x + dirX * (2/25) * speed + (-dirY) * noise,
   z + dirY * (2/25) * speed + dirX * noise)

/-- The foam life update of one particle in one pass (main.js:3824-3830):
decrement by 0.01 · flow speed; a decremented value at or below zero is
reset to exactly 1.0 (the same branch also respawns the particle's
position). -/
def foamLifeStep (speed life : ℚ) : ℚ :=
  let l := life - (1/100) * speed
  if l ≤ 0 then 1 else l

/-- A constant-zero rational function, used as a concrete instantiation of
the sine/sqrt parameters where only forced values matter. -/
def constZero : ℚ → ℚ := fun _ => 0

/-- River flow-speed modification (main.js:3244-3268): while the water
exists and the player's water-relative X/Z lies strictly within the
half-width/half-length bounds and the player's Y is below the water height
plus 0.5, the move speed is multiplied by `1 + alignment * 0.5` where
`alignment` is the dot product of the world move direction with the flow
direction (both horizontal). -/
def riverFlowSpeed (waterPresent : Bool) (p : RiverParams)
    (px py pz mx mz fx fz moveSpeed : ℚ) : ℚ :=
  if waterPresent then
    let halfWidth := p.width / 2
    let halfLength := p.rLength / 2
    let pRelX := px - p.waterX
    let pRelZ := pz - p.waterZ
    if |pRelX| < halfWidth ∧ |pRelZ| < halfLength then
      if py < p.waterHeight + 1/2 then
        let alignment := mx * fx + mz * fz
        moveSpeed * (1 + alignment * (1/2))
      else moveSpeed
    else moveSpeed
  else moveSpeed

/-- Ceiling check (main.js:3376-3389): if the upward ray cast from just
above the feet hits within 1.8 units, cap the player's Y at the hit point
minus 1.9, and zero the vertical velocity if it was positive when the cap
is applied. -/
def ceilingStep (ceilingHit : Option RayHit) (s : LocoState) : LocoState :=
  match ceilingHit with
  | some hit =>
    if hit.distance < 9/5 then
      let maxPlayerY := hit.pointY - 19/10
      if s.y > maxPlayerY then
        { s with y := maxPlayerY,
                 verticalVelocity :=
                   if s.verticalVelocity > 0 then 0 else s.verticalVelocity }
      else s
    else s
  | none => s

/-- The revert-branch guard of the later revision (main.js:3412-3414): the
height difference exceeds the 0.6 step threshold, the player is not already
clearing the obstacle, is not jumping (no upward velocity), and is not in
the air. -/
def revertCondV2 (oldGroundHeight newGroundHeight y vv : ℚ)
    (grounded : Bool) : Bool :=
  decide (newGroundHeight - oldGroundHeight > 3/5)
    && !(decide (y > newGroundHeight)) && !(decide (vv > 0)) && grounded

/-- The revert-branch guard of the earlier revision (main.js:836): the
height difference exceeds the 0.5 step threshold and the player is not
already clearing the obstacle. -/
def revertCondV1 (oldGroundHeight newGroundHeight y : ℚ) : Bool :=
  decide (newGroundHeight - oldGroundHeight > 1/2)
    && !(decide (y > newGroundHeight))

/-- Post-move ground resolution, later revision (main.js:3394-3452).  When
the downward probe hits: record the new ground height, and either (revert
branch) restore the pre-move X/Z and run landing logic against the re-probe
result at the reverted position, or (else branch) snap to the new ground
when at or below it with non-positive velocity, leave the grounded flag
untouched when at or below it with positive velocity, and clear the flag
when above it.  Finally, the emergency escape teleports the player back to
the new ground if Y fell below -10. -/
def resolveGroundV2 (oldX oldZ oldGroundHeight : ℚ)
    (postGround revertGround : Option ℚ) (s : LocoState) : LocoState :=
  match postGround with
  | none => s
  | some newGroundHeight =>
    let s0 := { s with lastGroundHeight := newGroundHeight }
    let s1 : LocoState :=
      if revertCondV2 oldGroundHeight newGroundHeight s0.y
          s0.verticalVelocity s0.isGrounded then
        let sR := { s0 with x := oldX, z := oldZ }
        match revertGround with
        | some validGround =>
          if sR.y ≤ validGround + 1/10 ∧ sR.verticalVelocity ≤ 0 then
            { sR with y := validGround + 1/10, verticalVelocity := 0,
                      isGrounded := true }
          else { sR with isGrounded := false }
        | none => sR
      else
        if s0.y ≤ newGroundHeight + 1/10 then
          if s0.verticalVelocity ≤ 0 then
            { s0 with y := newGroundHeight + 1/10, verticalVelocity := 0,
                      isGrounded := true }
          else s0
        else { s0 with isGrounded := false }
    if s1.y < -10 then
      { s1 with y := newGroundHeight + 1/10, verticalVelocity := 0,
                isGrounded := true }
    else s1

/-- Post-move ground resolution, earlier revision (main.js:818-872):
identical to the later revision except for the revert guard (threshold 0.5
and no jumping/airborne exemptions). -/
def resolveGroundV1 (oldX oldZ oldGroundHeight : ℚ)
    (postGround revertGround : Option ℚ) (s : LocoState) : LocoState :=
  match postGround with
  | none => s
  | some newGroundHeight =>
    let s0 := { s with lastGroundHeight := newGroundHeight }
    let s1 : LocoState :=
      if revertCondV1 oldGroundHeight newGroundHeight s0.y then
        let sR := { s0 with x := oldX, z := oldZ }
        match revertGround with
        | some validGround =>
          if sR.y ≤ validGround + 1/10 ∧ sR.verticalVelocity ≤ 0 then
            { sR with y := validGround + 1/10, verticalVelocity := 0,
                      isGrounded := true }
          else { sR with isGrounded := false }
        | none => sR
      else
        if s0.y ≤ newGroundHeight + 1/10 then
          if s0.verticalVelocity ≤ 0 then
            { s0 with y := newGroundHeight + 1/10, verticalVelocity := 0,
                      isGrounded := true }
          else s0
        else { s0 with isGrounded := false }
    if s1.y < -10 then
      { s1 with y := newGroundHeight + 1/10, verticalVelocity := 0,
                isGrounded := true }
    else s1

/-- Per-frame inputs to the gravity/ground section: control-lock state, jump
key, availability of the jump clip, movement/sprint flags, frame delta, the
world move direction and flow direction (horizontal components, computed
from quaternions/angles upstream), and the slerped yaw the rotation step
would write this frame (quaternion slerp itself is not re-derived here). -/
structure FrameInput where
  locked : Bool
  space : Bool
  hasJumpAction : Bool
  moving : Bool
  running : Bool
  delta : ℚ
  moveDirX : ℚ
  moveDirZ : ℚ
  flowDirX : ℚ
  flowDirZ : ℚ
  slerpedYaw : ℚ
  deriving Repr

/-- The results the terrain raycasts of one frame would return, supplied as
oracles: pre-move ground probe (point y), the three forward wall probes
(distances), the ceiling probe, the post-move ground probe (point y) and the
revert-position ground probe (point y). -/
structure FrameProbes where
  preGround : Option ℚ
  wallKnee : Option ℚ
  wallNeck : Option ℚ
  wallHead : Option ℚ
  ceiling : Option RayHit
  postGround : Option ℚ
  revertGround : Option ℚ
  deriving Repr

/-- The forward wall check of the later revision (main.js:3272-3306): knee,
neck and head rays are cast in order, short-circuiting once blocked; a hit
within 0.8 blocks movement.  Returns the blocked flag and the number of
rays actually cast. -/
def wallCheck (pr : FrameProbes) : Bool × ℕ :=
  let kneeHit := match pr.wallKnee with
    | some d => decide (d < 4/5)
    | none => false
  if kneeHit then (true, 1)
  else
    let neckHit := match pr.wallNeck with
      | some d => decide (d < 4/5)
      | none => false
    if neckHit then (true, 2)
    else
      let headHit := match pr.wallHead with
        | some d => decide (d < 4/5)
        | none => false
      (headHit, 3)

/-- The per-frame gravity/ground section of `animate`, later revision
(main.js:3115-3459), guarded by the presence of both the player and the
terrain handle (main.js:3116 `if (player && terrain)`).  Returns the new
player state and the number of terrain probes issued.  When either handle is
missing the whole section is skipped: the state is returned unchanged and no
probe is issued. -/
def animateGravitySection (terrainPresent : Bool) (player : Option LocoState)
    (waterPresent : Bool) (p : RiverParams) (inp : FrameInput)
    (pr : FrameProbes) : Option LocoState × ℕ :=
  match player, terrainPresent with
  | some s, true =>
    let oldX := s.x
    let oldZ := s.z
    let oldGroundHeight := match pr.preGround with
      | some h => h
      | none => s.y
    let cres : LocoState × ℕ :=
      if inp.locked then
        let sR := { s with yaw := inp.slerpedYaw }
        let sJ := jumpTriggerV2 inp.space inp.hasJumpAction sR
        let g := gravityStep inp.delta (sJ.verticalVelocity, sJ.y)
        let sG := { sJ with verticalVelocity := g.1, y := g.2 }
        if inp.moving then
          let baseSpeed : ℚ := if inp.running then 10 else 4
          let speed := riverFlowSpeed waterPresent p sG.x sG.y sG.z
            inp.moveDirX inp.moveDirZ inp.flowDirX inp.flowDirZ baseSpeed
          let wc := wallCheck pr
          if wc.1 then (sG, wc.2)
          else
            ({ sG with x := sG.x + inp.moveDirX * (speed * inp.delta),
                       z := sG.z + inp.moveDirZ * (speed * inp.delta) },
             wc.2)
        else (sG, 0)
      else (s, 0)
    let sC := ceilingStep pr.ceiling cres.1
    let resolved := resolveGroundV2 oldX oldZ oldGroundHeight
      pr.postGround pr.revertGround sC
    let revProbes : ℕ := match pr.postGround with
      | some ng =>
        if revertCondV2 oldGroundHeight ng sC.y sC.verticalVelocity
            sC.isGrounded then 1 else 0
      | none => 0
    (some resolved, 1 + cres.2 + 1 + 1 + revProbes)
  | _, _ => (player, 0)

/-- A sample player state used by closed witness instances. -/
def sampleState : LocoState :=
  { x := 0, y := 1/10, z := 0, verticalVelocity := 0, isGrounded := true,
    lastGroundHeight := 0, yaw := 0, activeAction := ActionName.idle }

/-- A sample frame input used by closed witness instances. -/
def sampleInput : FrameInput :=
  { locked := true, space := false, hasJumpAction := true, moving := false,
    running := false, delta := 1/60, moveDirX := 0, moveDirZ := 1,
    flowDirX := 0, flowDirZ := 1, slerpedYaw := 0 }

/-- A sample probe-result record used by closed witness instances. -/
def sampleProbes : FrameProbes :=
  { preGround := some 0, wallKnee := none, wallNeck := none,
    wallHead := none, ceiling := none, postGround := some 0,
    revertGround := none }

/-- Closed form of the iterated gravity integration: after `n` steps of
delta `dt`, the velocity drops by `20 n dt` and the position gains
`n dt v - 10 n (n+1) dt^2`. -/
theorem gravityIter_closed (n : ℕ) (dt v y : ℚ) :
    gravityIter n dt (v, y) =
      (v - 20 * n * dt, y + n * dt * v - 10 * n * (n + 1) * dt ^ 2) := by
  induction n generalizing v y with
  | zero => simp [gravityIter]
  | succ k ih =>
    show gravityIter k dt (gravityStep dt (v, y)) = _
    rw [show gravityStep dt (v, y) = (v - 20 * dt, y + (v - 20 * dt) * dt) from rfl]
    rw [ih]
    refine Prod.ext ?_ ?_ <;> (push_cast; ring)

/-- C4 (amended): the per-frame integration is not step-size independent.
Sixty steps of dt = 1/60 yield net displacement v - 61/6, a single step of
dt = 1 yields v - 20, and the two differ by exactly 59/6 for every initial
velocity. -/
theorem gravityStepSizeDependence (v y : ℚ) :
    (gravityIter 60 (1/60) (v, y)).2 = y + v - 61/6 ∧
    (gravityIter 1 1 (v, y)).2 = y + v - 20 ∧
    (gravityIter 1 1 (v, y)).2 - (gravityIter 60 (1/60) (v, y)).2
      = -(59/6) := by
  rw [gravityIter_closed, gravityIter_closed]
  norm_num

/-- C4 counterexample: starting at rest, sixty frames of dt = 1/60 and one
frame of dt = 1 do not produce approximately the same net vertical
displacement: they differ by 59/6 (about 9.83 world units). -/
theorem gravityStepSizeDependence_cex :
    (gravityIter 60 (1/60) ((0:ℚ), 0)).2 ≠ (gravityIter 1 1 ((0:ℚ), 0)).2 ∧
    (gravityIter 1 1 ((0:ℚ), 0)).2 - (gravityIter 60 (1/60) ((0:ℚ), 0)).2
      = -(59/6) := by
  rw [gravityIter_closed, gravityIter_closed]
  norm_num

/-- C2: in both revisions, a jump input while grounded (with the jump clip
available) sets the vertical velocity to the revision's fixed impulse (8.0
earlier, 10.0 later), clears the grounded flag and makes Jump the active
action; no part of the transition occurs when the grounded flag is
false. -/
theorem jumpTriggerSpec (space hasJump : Bool) (s : LocoState) :
    (space = true → s.isGrounded = true → hasJump = true →
      (jumpTriggerV2 space hasJump s).verticalVelocity = 10 ∧
      (jumpTriggerV2 space hasJump s).isGrounded = false ∧
      (jumpTriggerV2 space hasJump s).activeAction = ActionName.jump ∧
      (jumpTriggerV1 space hasJump s).verticalVelocity = 8 ∧
      (jumpTriggerV1 space hasJump s).isGrounded = false ∧
      (jumpTriggerV1 space hasJump s).activeAction = ActionName.jump) ∧
    (s.isGrounded = false →
      jumpTriggerV2 space hasJump s = s ∧ jumpTriggerV1 space hasJump s = s) := by
  constructor
  · intro hs hg hj
    subst hs; subst hj
    simp [jumpTriggerV2, jumpTriggerV1, hg]
  · intro hg
    simp [jumpTriggerV2, jumpTriggerV1, hg]

/-- Witness for C2 at a concrete grounded state. -/
theorem jumpTriggerSpec_witness :
    (jumpTriggerV2 true true sampleState).verticalVelocity = 10 ∧
    (jumpTriggerV2 true true sampleState).isGrounded = false ∧
    (jumpTriggerV2 true true sampleState).activeAction = ActionName.jump ∧
    (jumpTriggerV1 true true sampleState).verticalVelocity = 8 ∧
    (jumpTriggerV1 true true sampleState).isGrounded = false ∧
    (jumpTriggerV1 true true sampleState).activeAction = ActionName.jump :=
  (jumpTriggerSpec true true sampleState).1 rfl rfl rfl

/-- C10: for any non-negative flow speed, one foam life pass maps any life
value at most 1 into the half-open interval (0, 1], and a decremented value
at or below zero is reset to exactly 1. -/
theorem foamLifeInvariant (speed life : ℚ) (hs : 0 ≤ speed) (hl : life ≤ 1) :
    0 < foamLifeStep speed life ∧ foamLifeStep speed life ≤ 1 ∧
    (life - (1/100) * speed ≤ 0 → foamLifeStep speed life = 1) := by
  simp only [foamLifeStep]
  split_ifs with h
  · exact ⟨one_pos, le_refl 1, fun _ => rfl⟩
  · push_neg at h
    exact ⟨h, by nlinarith, fun hc => absurd hc (not_le.mpr h)⟩

/-- Witness for C10 at speed 0.7 (the source default) and life 1/2. -/
theorem foamLifeInvariant_witness :
    0 < foamLifeStep (7/10) (1/2) ∧ foamLifeStep (7/10) (1/2) ≤ 1 ∧
    ((1:ℚ)/2 - (1/100) * (7/10) ≤ 0 → foamLifeStep (7/10) (1/2) = 1) :=
  foamLifeInvariant (7/10) (1/2) (by norm_num) (by norm_num)

/-- C8: the wave field is deterministic — two evaluations with identical
arguments (same position, time, flow direction, and fixed configuration)
return the identical value; the embedding reads no state besides its
arguments. -/
theorem getWaveHeightDeterministic (sine : ℚ → ℚ) (p : RiverParams)
    (x z t dX dY x2 z2 t2 dX2 dY2 : ℚ)
    (hx : x = x2) (hz : z = z2) (ht : t = t2)
    (hdX : dX = dX2) (hdY : dY = dY2) :
    getWaveHeight sine p x z t dX dY = getWaveHeight sine p x2 z2 t2 dX2 dY2 := by
  subst hx hz ht hdX hdY
  rfl

/-- Witness for C8 at a concrete argument tuple. -/
theorem getWaveHeightDeterministic_witness :
    getWaveHeight constZero defaultRiverParams 1 2 3 0 1 =
      getWaveHeight constZero defaultRiverParams 1 2 3 0 1 :=
  getWaveHeightDeterministic constZero defaultRiverParams 1 2 3 0 1 1 2 3 0 1
    rfl rfl rfl rfl rfl

/-- C5: whenever the upward ceiling probe hits within the 1.8 clearance
threshold, the resulting Y is at most the hit point minus 1.9, and if the
cap is applied (Y was above the cap) while the vertical velocity is
positive, the velocity is zeroed. -/
theorem ceilingClampSpec (s : LocoState) (hit : RayHit)
    (hd : hit.distance < 9/5) :
    (ceilingStep (some hit) s).y ≤ hit.pointY - 19/10 ∧
    (s.y > hit.pointY - 19/10 → s.verticalVelocity > 0 →
      (ceilingStep (some hit) s).verticalVelocity = 0) := by
  simp only [ceilingStep]
  rw [if_pos hd]
  by_cases hy : s.y > hit.pointY - 19/10
  · rw [if_pos hy]
    exact ⟨le_refl _, fun _ hv => by simp [hv]⟩
  · rw [if_neg hy]
    exact ⟨le_of_not_lt hy, fun hy2 _ => absurd hy2 hy⟩

/-- Witness for C5: a hit one unit above the probe origin. -/
theorem ceilingClampSpec_witness :
    (ceilingStep (some (RayHit.mk 1 2)) sampleState).y
        ≤ (RayHit.mk 1 2).pointY - 19/10 ∧
    (sampleState.y > (RayHit.mk 1 2).pointY - 19/10 →
      sampleState.verticalVelocity > 0 →
      (ceilingStep (some (RayHit.mk 1 2)) sampleState).verticalVelocity = 0) :=
  ceilingClampSpec sampleState (RayHit.mk 1 2) (by norm_num)

/-- C6: for a player strictly inside the river's half-width/half-length
bounds and below water height + 0.5, the move speed becomes
`speed * (1 + dot * 0.5)` where `dot` is the alignment of the move
direction with the flow; the result is strictly increasing in the dot
product, exceeds the base speed when moving with the flow (dot > 0), and
falls below it when moving against the flow (dot < 0). -/
theorem riverFlowSpeedSpec (p : RiverParams)
    (px py pz mx mz fx fz mx2 mz2 speed : ℚ)
    (hx : |px - p.waterX| < p.width / 2)
    (hz : |pz - p.waterZ| < p.rLength / 2)
    (hy : py < p.waterHeight + 1/2)
    (hs : 0 < speed) :
    riverFlowSpeed true p px py pz mx mz fx fz speed
        = speed * (1 + (mx * fx + mz * fz) * (1/2)) ∧
    (mx * fx + mz * fz < mx2 * fx + mz2 * fz →
      riverFlowSpeed true p px py pz mx mz fx fz speed
        < riverFlowSpeed true p px py pz mx2 mz2 fx fz speed) ∧
    (0 < mx * fx + mz * fz →
      speed < riverFlowSpeed true p px py pz mx mz fx fz speed) ∧
    (mx * fx + mz * fz < 0 →
      riverFlowSpeed true p px py pz mx mz fx fz speed < speed) := by
  have key : ∀ a b : ℚ,
      riverFlowSpeed true p px py pz a b fx fz speed
        = speed * (1 + (a * fx + b * fz) * (1/2)) := by
    intro a b
    simp only [riverFlowSpeed, if_true]
    rw [if_pos ⟨hx, hz⟩, if_pos hy]
  refine ⟨key mx mz, ?_, ?_, ?_⟩
  · intro hlt
    rw [key mx mz, key mx2 mz2]
    nlinarith
  · intro hpos
    rw [key mx mz]
    nlinarith
  · intro hneg
    rw [key mx mz]
    nlinarith

/-- Witness for C6: source-default river, player at the water origin, base
speed 4 (walk), flow along +Z, comparing a with-flow and an against-flow
move direction. -/
theorem riverFlowSpeedSpec_witness :
    riverFlowSpeed true defaultRiverParams 2 0 (-6/5) 0 1 0 1 4
        = 4 * (1 + ((0:ℚ) * 0 + 1 * 1) * (1/2)) ∧
    (((0:ℚ) * 0 + 1 * 1 < 0 * 0 + 2 * 1) →
      riverFlowSpeed true defaultRiverParams 2 0 (-6/5) 0 1 0 1 4
        < riverFlowSpeed true defaultRiverParams 2 0 (-6/5) 0 2 0 1 4) ∧
    ((0 < (0:ℚ) * 0 + 1 * 1) →
      4 < riverFlowSpeed true defaultRiverParams 2 0 (-6/5) 0 1 0 1 4) ∧
    (((0:ℚ) * 0 + 1 * 1 < 0) →
      riverFlowSpeed true defaultRiverParams 2 0 (-6/5) 0 1 0 1 4 < 4) :=
  riverFlowSpeedSpec defaultRiverParams 2 0 (-6/5) 0 1 0 1 0 2 4
    (by norm_num [defaultRiverParams]) (by norm_num [defaultRiverParams])
    (by norm_num [defaultRiverParams]) (by norm_num)

/-- C7 (amended): the radial rock bump enters only the water-mesh vertex
height; the foam height lock uses the unperturbed wave field, so a foam
particle's Y is `getWaveHeight + 0.05` and the water-vertex height exceeds
the wave field by exactly the rock bump. -/
theorem foamLockUsesUnperturbedField (sine sqrtFn : ℚ → ℚ) (p : RiverParams)
    (rocks : List Rock) (x z time dirX dirY : ℚ) :
    foamLockY sine p x z time dirX dirY
        = getWaveHeight sine p x z time dirX dirY + 1/20 ∧
    waterVertexHeight sine sqrtFn p rocks x z time dirX dirY
        = getWaveHeight sine p x z time dirX dirY + rockPush sqrtFn rocks x z ∧
    waterVertexHeight sine sqrtFn p rocks x z time dirX dirY
        - foamLockY sine p x z time dirX dirY
        = rockPush sqrtFn rocks x z - 1/20 := by
  refine ⟨rfl, rfl, ?_⟩
  simp only [waterVertexHeight, foamLockY]
  ring

/-- C7 counterexample: with a single rock of radius 1 at the water origin
and a foam particle directly on it, the foam's locked Y is the unperturbed
wave height + 0.05, not the rock-perturbed vertex height + 0.05 — the two
differ by the full bump 0.6. -/
theorem foamLockRockBump_cex :
    foamLockY constZero defaultRiverParams 0 0 0 0 1 ≠
      waterVertexHeight constZero constZero defaultRiverParams
        [Rock.mk 0 0 1] 0 0 0 0 1 + 1/20 := by
  simp only [foamLockY, waterVertexHeight, rockPush, getWaveHeight, constZero,
    List.map, List.sum]
  norm_num

/-- C9: when the player handle or the terrain handle is missing, the whole
gravity/ground section is skipped: the player state (position, yaw,
vertical velocity, grounded flag, last ground height, active action) is
returned unchanged and zero terrain probes are issued. -/
theorem frameSkipSpec (terrainPresent : Bool) (player : Option LocoState)
    (waterPresent : Bool) (p : RiverParams) (inp : FrameInput)
    (pr : FrameProbes)
    (h : player = none ∨ terrainPresent = false) :
    animateGravitySection terrainPresent player waterPresent p inp pr
      = (player, 0) := by
  rcases h with h | h
  · subst h
    cases terrainPresent <;> rfl
  · subst h
    cases player <;> rfl

/-- Witness for C9: with the terrain handle missing, a concrete frame
leaves the sample state untouched and issues no probe. -/
theorem frameSkipSpec_witness :
    animateGravitySection false (some sampleState) true defaultRiverParams
      sampleInput sampleProbes = (some sampleState, 0) :=
  frameSkipSpec false (some sampleState) true defaultRiverParams sampleInput
    sampleProbes (Or.inr rfl)

/-- Characterization of the later revision's revert guard. -/
theorem revertCondV2_true_iff (oldG ng y vv : ℚ) (g : Bool) :
    revertCondV2 oldG ng y vv g = true ↔
      ng - oldG > 3/5 ∧ ¬(y > ng) ∧ ¬(vv > 0) ∧ g = true := by
  simp [revertCondV2, and_assoc]

/-- Characterization of the earlier revision's revert guard. -/
theorem revertCondV1_true_iff (oldG ng y : ℚ) :
    revertCondV1 oldG ng y = true ↔ ng - oldG > 1/2 ∧ ¬(y > ng) := by
  simp [revertCondV1]

/-- C1: the step-height revert policy, both revisions.  If the post-move
ground height rose above the old ground height by more than the step
threshold (0.6 later, 0.5 earlier) and the player is not clearing the
obstacle, not jumping and not airborne, the X/Z are reverted to the
pre-move position (Y untouched by the revert; when the re-probe misses and
no emergency applies the state changes only in X, Z and the recorded ground
height).  In particular a 0.2 height difference while grounded is never
reverted, and a 1.0 height difference while grounded, not jumping and
standing on the old ground is always reverted, in both revisions. -/
theorem stepRevertPolicy (oldX oldZ oldG ng : ℚ) (revertGround : Option ℚ)
    (s : LocoState) :
    (ng - oldG > 3/5 → s.y ≤ ng → s.verticalVelocity ≤ 0 →
      s.isGrounded = true →
      (resolveGroundV2 oldX oldZ oldG (some ng) revertGround s).x = oldX ∧
      (resolveGroundV2 oldX oldZ oldG (some ng) revertGround s).z = oldZ ∧
      (revertGround = none → -10 ≤ s.y →
        resolveGroundV2 oldX oldZ oldG (some ng) revertGround s
          = { s with x := oldX, z := oldZ, lastGroundHeight := ng })) ∧
    (ng - oldG = 1/5 → s.isGrounded = true →
      (resolveGroundV2 oldX oldZ oldG (some ng) revertGround s).x = s.x ∧
      (resolveGroundV2 oldX oldZ oldG (some ng) revertGround s).z = s.z) ∧
    (ng - oldG = 1 → s.isGrounded = true → s.verticalVelocity ≤ 0 →
      s.y = oldG + 1/10 →
      (resolveGroundV2 oldX oldZ oldG (some ng) revertGround s).x = oldX ∧
      (resolveGroundV2 oldX oldZ oldG (some ng) revertGround s).z = oldZ) ∧
    (ng - oldG > 1/2 → s.y ≤ ng →
      (resolveGroundV1 oldX oldZ oldG (some ng) revertGround s).x = oldX ∧
      (resolveGroundV1 oldX oldZ oldG (some ng) revertGround s).z = oldZ) ∧
    (ng - oldG = 1/5 → s.isGrounded = true →
      (resolveGroundV1 oldX oldZ oldG (some ng) revertGround s).x = s.x ∧
      (resolveGroundV1 oldX oldZ oldG (some ng) revertGround s).z = s.z) ∧
    (ng - oldG = 1 → s.isGrounded = true → s.verticalVelocity ≤ 0 →
      s.y = oldG + 1/10 →
      (resolveGroundV1 oldX oldZ oldG (some ng) revertGround s).x = oldX ∧
      (resolveGroundV1 oldX oldZ oldG (some ng) revertGround s).z = oldZ) := by
  have revertedV2 : ∀ hc : revertCondV2 oldG ng s.y s.verticalVelocity
        s.isGrounded = true,
      (resolveGroundV2 oldX oldZ oldG (some ng) revertGround s).x = oldX ∧
      (resolveGroundV2 oldX oldZ oldG (some ng) revertGround s).z = oldZ := by
    intro hc
    cases revertGround with
    | none =>
      simp only [resolveGroundV2]
      rw [if_pos hc]
      split_ifs <;> simp
    | some vg =>
      simp only [resolveGroundV2]
      rw [if_pos hc]
      by_cases hl : s.y ≤ vg + 1 / 10 ∧ s.verticalVelocity ≤ 0
      · rw [if_pos hl]
        split_ifs <;> simp
      · rw [if_neg hl]
        split_ifs <;> simp
  have revertedV1 : ∀ hc : revertCondV1 oldG ng s.y = true,
      (resolveGroundV1 oldX oldZ oldG (some ng) revertGround s).x = oldX ∧
      (resolveGroundV1 oldX oldZ oldG (some ng) revertGround s).z = oldZ := by
    intro hc
    cases revertGround with
    | none =>
      simp only [resolveGroundV1]
      rw [if_pos hc]
      split_ifs <;> simp
    | some vg =>
      simp only [resolveGroundV1]
      rw [if_pos hc]
      by_cases hl : s.y ≤ vg + 1 / 10 ∧ s.verticalVelocity ≤ 0
      · rw [if_pos hl]
        split_ifs <;> simp
      · rw [if_neg hl]
        split_ifs <;> simp
  have unrevertedV2 : ∀ hc : revertCondV2 oldG ng s.y s.verticalVelocity
        s.isGrounded = false,
      (resolveGroundV2 oldX oldZ oldG (some ng) revertGround s).x = s.x ∧
      (resolveGroundV2 oldX oldZ oldG (some ng) revertGround s).z = s.z := by
    intro hc
    simp only [resolveGroundV2, hc, Bool.false_eq_true, if_false]
    split_ifs <;> simp
  have unrevertedV1 : ∀ hc : revertCondV1 oldG ng s.y = false,
      (resolveGroundV1 oldX oldZ oldG (some ng) revertGround s).x = s.x ∧
      (resolveGroundV1 oldX oldZ oldG (some ng) revertGround s).z = s.z := by
    intro hc
    simp only [resolveGroundV1, hc, Bool.false_eq_true, if_false]
    split_ifs <;> simp
  refine ⟨?_, ?_, ?_, ?_, ?_, ?_⟩
  · intro hd hcl hj hg
    have hc : revertCondV2 oldG ng s.y s.verticalVelocity s.isGrounded = true :=
      (revertCondV2_true_iff oldG ng s.y s.verticalVelocity s.isGrounded).mpr
        ⟨hd, not_lt.mpr hcl, not_lt.mpr hj, hg⟩
    refine ⟨(revertedV2 hc).1, (revertedV2 hc).2, ?_⟩
    intro hnone hEsc
    subst hnone
    simp only [resolveGroundV2]
    rw [if_pos hc]
    split_ifs with hesc
    · exact absurd hesc (not_lt.mpr hEsc)
    · rfl
  · intro hd hg
    have hc : revertCondV2 oldG ng s.y s.verticalVelocity s.isGrounded = false := by
      rw [← Bool.not_eq_true, revertCondV2_true_iff]
      rw [hd]
      norm_num
    exact unrevertedV2 hc
  · intro hd hg hj hy
    have hc : revertCondV2 oldG ng s.y s.verticalVelocity s.isGrounded = true := by
      rw [revertCondV2_true_iff]
      refine ⟨by rw [hd]; norm_num, ?_, not_lt.mpr hj, hg⟩
      rw [hy]
      intro hcon
      nlinarith [hd]
    exact revertedV2 hc
  · intro hd hcl
    have hc : revertCondV1 oldG ng s.y = true :=
      (revertCondV1_true_iff oldG ng s.y).mpr ⟨hd, not_lt.mpr hcl⟩
    exact revertedV1 hc
  · intro hd hg
    have hc : revertCondV1 oldG ng s.y = false := by
      rw [← Bool.not_eq_true, revertCondV1_true_iff]
      rw [hd]
      norm_num
    exact unrevertedV1 hc
  · intro hd hg hj hy
    have hc : revertCondV1 oldG ng s.y = true := by
      rw [revertCondV1_true_iff]
      refine ⟨by rw [hd]; norm_num, ?_⟩
      rw [hy]
      intro hcon
      nlinarith [hd]
    exact revertedV1 hc

/-- Witness for C1: a grounded player standing at ground height 0 who moved
into a 1.0-unit wall (new ground 1) is put back to the pre-move X/Z (5, 7)
in the later revision. -/
theorem stepRevertPolicy_witness :
    (resolveGroundV2 5 7 0 (some 1) (some 0) sampleState).x = 5 ∧
    (resolveGroundV2 5 7 0 (some 1) (some 0) sampleState).z = 7 :=
  (stepRevertPolicy 5 7 0 1 (some 0) sampleState).2.2.1 (by norm_num) rfl
    (by norm_num [sampleState]) (by norm_num [sampleState])

/-- C3: landing snap of the no-revert branch, stated per revision so that
each revision's conclusions assume only that revision's own revert guard is
false.  Under the run-time invariant that a grounded player has
non-positive vertical velocity, and excluding the emergency-escape region
(Y at least -10): when the post-move probe hits and that revision's revert
guard does not fire, a player at or below the new ground plus 0.1 with
non-positive velocity is snapped to ground + 0.1 with zero velocity and
grounded set; in every other case of that branch the player ends the
resolution airborne (grounded false). -/
theorem landingSnapSpec (oldX oldZ oldG ng : ℚ) (revertGround : Option ℚ)
    (s : LocoState)
    (hInv : s.isGrounded = true → s.verticalVelocity ≤ 0)
    (hEsc : -10 ≤ s.y) :
    (revertCondV2 oldG ng s.y s.verticalVelocity s.isGrounded = false →
      (s.y ≤ ng + 1/10 → s.verticalVelocity ≤ 0 →
        (resolveGroundV2 oldX oldZ oldG (some ng) revertGround s).y
            = ng + 1/10 ∧
        (resolveGroundV2 oldX oldZ oldG (some ng) revertGround
            s).verticalVelocity = 0 ∧
        (resolveGroundV2 oldX oldZ oldG (some ng) revertGround s).isGrounded
            = true) ∧
      (¬(s.y ≤ ng + 1/10 ∧ s.verticalVelocity ≤ 0) →
        (resolveGroundV2 oldX oldZ oldG (some ng) revertGround s).isGrounded
            = false)) ∧
    (revertCondV1 oldG ng s.y = false →
      (s.y ≤ ng + 1/10 → s.verticalVelocity ≤ 0 →
        (resolveGroundV1 oldX oldZ oldG (some ng) revertGround s).y
            = ng + 1/10 ∧
        (resolveGroundV1 oldX oldZ oldG (some ng) revertGround
            s).verticalVelocity = 0 ∧
        (resolveGroundV1 oldX oldZ oldG (some ng) revertGround s).isGrounded
            = true) ∧
      (¬(s.y ≤ ng + 1/10 ∧ s.verticalVelocity ≤ 0) →
        (resolveGroundV1 oldX oldZ oldG (some ng) revertGround s).isGrounded
            = false)) := by
  constructor
  · intro hNoRev2
    constructor
    · intro hy hv
      refine ⟨?_, ?_, ?_⟩ <;>
        · simp only [resolveGroundV2, hNoRev2, Bool.false_eq_true, if_false]
          rw [if_pos hy, if_pos hv]
          split_ifs <;> simp
    · intro hno
      by_cases hy : s.y ≤ ng + 1/10
      · have hv : ¬ s.verticalVelocity ≤ 0 := fun hv => hno ⟨hy, hv⟩
        have hg : s.isGrounded = false := by
          cases hgv : s.isGrounded with
          | false => rfl
          | true => exact absurd (hInv hgv) hv
        simp only [resolveGroundV2, hNoRev2, Bool.false_eq_true, if_false]
        rw [if_pos hy, if_neg hv]
        split_ifs with hesc
        · exact absurd hesc (not_lt.mpr hEsc)
        · exact hg
      · simp only [resolveGroundV2, hNoRev2, Bool.false_eq_true, if_false]
        rw [if_neg hy]
        split_ifs with hesc
        · exact absurd hesc (not_lt.mpr hEsc)
        · rfl
  · intro hNoRev1
    constructor
    · intro hy hv
      refine ⟨?_, ?_, ?_⟩ <;>
        · simp only [resolveGroundV1, hNoRev1, Bool.false_eq_true, if_false]
          rw [if_pos hy, if_pos hv]
          split_ifs <;> simp
    · intro hno
      by_cases hy : s.y ≤ ng + 1/10
      · have hv : ¬ s.verticalVelocity ≤ 0 := fun hv => hno ⟨hy, hv⟩
        have hg : s.isGrounded = false := by
          cases hgv : s.isGrounded with
          | false => rfl
          | true => exact absurd (hInv hgv) hv
        simp only [resolveGroundV1, hNoRev1, Bool.false_eq_true, if_false]
        rw [if_pos hy, if_neg hv]
        split_ifs with hesc
        · exact absurd hesc (not_lt.mpr hEsc)
        · exact hg
      · simp only [resolveGroundV1, hNoRev1, Bool.false_eq_true, if_false]
        rw [if_neg hy]
        split_ifs with hesc
        · exact absurd hesc (not_lt.mpr hEsc)
        · rfl

/-- Witness for C3: the sample grounded player on flat ground at height 0
snaps to 0.1 with zero velocity and grounded set, in both revisions. -/
theorem landingSnapSpec_witness :
    (resolveGroundV2 0 0 0 (some 0) none sampleState).y = 0 + 1/10 ∧
    (resolveGroundV2 0 0 0 (some 0) none sampleState).verticalVelocity = 0 ∧
    (resolveGroundV2 0 0 0 (some 0) none sampleState).isGrounded = true ∧
    (resolveGroundV1 0 0 0 (some 0) none sampleState).y = 0 + 1/10 ∧
    (resolveGroundV1 0 0 0 (some 0) none sampleState).verticalVelocity = 0 ∧
    (resolveGroundV1 0 0 0 (some 0) none sampleState).isGrounded = true := by
  have hn2 : revertCondV2 0 0 sampleState.y sampleState.verticalVelocity
      sampleState.isGrounded = false := by
    rw [← Bool.not_eq_true, revertCondV2_true_iff]
    norm_num
  have hn1 : revertCondV1 0 0 sampleState.y = false := by
    rw [← Bool.not_eq_true, revertCondV1_true_iff]
    norm_num
  have h := landingSnapSpec 0 0 0 0 none sampleState
    (fun _ => by norm_num [sampleState]) (by norm_num [sampleState])
  have h2 := (h.1 hn2).1 (by norm_num [sampleState]) (by norm_num [sampleState])
  have h1 := (h.2 hn1).1 (by norm_num [sampleState]) (by norm_num [sampleState])
  exact ⟨h2.1, h2.2.1, h2.2.2, h1.1, h1.2.1, h1.2.2⟩

/-- Support for the invariant hypothesis of the landing-snap theorem: every
step of the per-frame pipeline preserves "grounded implies non-positive
vertical velocity" (the jump trigger clears the grounded flag when it sets
an upward velocity, gravity only lowers the velocity for a non-negative
delta, the ceiling clamp only zeroes a positive velocity, and every
grounded outcome of the ground resolution carries zero velocity).  The
state entering the post-move resolution of any frame therefore satisfies
it, since it holds at spawn (velocity 0, grounded). -/
theorem groundedStaysNonPositive (dt : ℚ) (hdt : 0 ≤ dt)
    (space hasJump : Bool) (hit : Option RayHit) (oldX oldZ oldG : ℚ)
    (post rev : Option ℚ) (s : LocoState)
    (h : s.isGrounded = true → s.verticalVelocity ≤ 0) :
    ((jumpTriggerV2 space hasJump s).isGrounded = true →
      (jumpTriggerV2 space hasJump s).verticalVelocity ≤ 0) ∧
    ((jumpTriggerV1 space hasJump s).isGrounded = true →
      (jumpTriggerV1 space hasJump s).verticalVelocity ≤ 0) ∧
    (s.isGrounded = true → (gravityStep dt (s.verticalVelocity, s.y)).1 ≤ 0) ∧
    ((ceilingStep hit s).isGrounded = true →
      (ceilingStep hit s).verticalVelocity ≤ 0) ∧
    ((resolveGroundV2 oldX oldZ oldG post rev s).isGrounded = true →
      (resolveGroundV2 oldX oldZ oldG post rev s).verticalVelocity ≤ 0) ∧
    ((resolveGroundV1 oldX oldZ oldG post rev s).isGrounded = true →
      (resolveGroundV1 oldX oldZ oldG post rev s).verticalVelocity ≤ 0) := by
  refine ⟨?_, ?_, ?_, ?_, ?_, ?_⟩
  · unfold jumpTriggerV2
    split_ifs <;> simp_all
  · unfold jumpTriggerV1
    split_ifs <;> simp_all
  · intro hg
    have hv := h hg
    simp only [gravityStep]
    nlinarith
  · cases hit with
    | none => exact h
    | some r =>
      simp only [ceilingStep]
      by_cases hd : r.distance < 9/5
      · rw [if_pos hd]
        by_cases hy : s.y > r.pointY - 19/10
        · rw [if_pos hy]
          by_cases hv : s.verticalVelocity > 0
          · simp [hv]
          · simp only [if_neg hv]
            intro hg
            exact h hg
        · rw [if_neg hy]
          exact h
      · rw [if_neg hd]
        exact h
  · cases post with
    | none => exact h
    | some ng =>
      cases rev with
      | none =>
        simp only [resolveGroundV2]
        split_ifs <;> simp_all
      | some vg =>
        simp only [resolveGroundV2]
        split_ifs <;> simp_all
  · cases post with
    | none => exact h
    | some ng =>
      cases rev with
      | none =>
        simp only [resolveGroundV1]
        split_ifs <;> simp_all
      | some vg =>
        simp only [resolveGroundV1]
        split_ifs <;> simp_all
